import Mathlib

/-
Verification of the MCP session/transport layer of the interview-scheduler
repository: the HTTP request router (`handlePostRequest` / `handleGetRequest`),
the session registry (`transports`), the JSON-RPC error envelope
(`createErrorResponse`), the initialize-request detection
(`isInitializeRequest`), the tool dispatch table (`setupTools`), the
query-string serializer (`objectToQueryString`), and the SSE notification
streamer (`streamMessages`).

JavaScript objects are embedded as ordered association lists, JavaScript
values used by the query serializer as the inductive `JSValue`, and JSON
documents as the inductive `Json`.  External effects (the SDK transport's
`handleRequest`, `server.connect`, `randomUUID`, the outbound REST call made
by a tool handler) are modelled by explicit environment parameters and by
action traces listing the effects each handler performs, in order.
-/

set_option autoImplicit false

/-- A JSON document, as produced by `JSON.parse` on a request body.  Object
fields are kept in source order, as JavaScript preserves insertion order. -/
inductive Json where
  | null
  | bool (b : Bool)
  | num (n : Int)
  | str (s : String)
  | arr (elems : List Json)
  | obj (fields : List (String × Json))

/-- Property lookup on a JavaScript object: the value bound to key `k`, or
`none` when the key is absent (JavaScript `undefined`). -/
def lookupField : List (String × Json) → String → Option Json
  | [], _ => none
  | (k2, v) :: rest, k => if k2 == k then some v else lookupField rest k

/-- Whether a JavaScript object has a field named `k`. -/
def hasField (fields : List (String × Json)) (k : String) : Bool :=
  (lookupField fields k).isSome

/- ### `objectToQueryString` (src/server.js) and its helpers -/

/-- A JavaScript value as it may appear as an entry value of the object
passed to `objectToQueryString`: `undefined`, `null`, a string, an integer
number, a boolean, or an array of strings. -/
inductive JSValue where
  | undefined
  | nullV
  | str (s : String)
  | num (n : Int)
  | boolV (b : Bool)
  | arr (items : List String)
deriving DecidableEq

/-- JavaScript `Array.isArray`. -/
def JSValue.isArray : JSValue → Bool
  | .arr _ => true
  | _ => false

/-- JavaScript `.length` of an array value (only applied to arrays). -/
def JSValue.arrayLength : JSValue → Nat
  | .arr items => items.length
  | _ => 0

/-- JavaScript string coercion (`String(v)`), as applied by
`encodeURIComponent` to a non-string argument. -/
def JSValue.toJSString : JSValue → String
  | .str s => s
  | .num n => toString n
  | .boolV b => if b then "true" else "false"
  | .undefined => "undefined"
  | .nullV => "null"
  | .arr items => String.intercalate "," items

/-- Upper-case hexadecimal digit, as used by `encodeURIComponent` escapes. -/
def hexUpper (n : Nat) : Char :=
  if n < 10 then Char.ofNat (48 + n) else Char.ofNat (55 + n)

/-- The UTF-8 bytes of the code point `n`. -/
def utf8Bytes (n : Nat) : List Nat :=
  if n < 128 then [n]
  else if n < 2048 then [192 + n / 64, 128 + n % 64]
  else if n < 65536 then [224 + n / 4096, 128 + n / 64 % 64, 128 + n % 64]
  else [240 + n / 262144, 128 + n / 4096 % 64, 128 + n / 64 % 64, 128 + n % 64]

/-- The characters `encodeURIComponent` leaves unescaped:
`A–Z a–z 0–9 - _ . ! ~ * ' ( )`. -/
def isUnreservedURIChar (c : Char) : Bool :=
  c.isAlpha || c.isDigit || c == '-' || c == '_' || c == '.' || c == '!' ||
    c == '~' || c == '*' || c == Char.ofNat 39 || c == '(' || c == ')'

/-- Percent-escaping of one character: each UTF-8 byte as `%XX`. -/
def percentEncodeChar (c : Char) : String :=
  String.join ((utf8Bytes c.toNat).map fun b =>
    "%" ++ String.singleton (hexUpper (b / 16)) ++ String.singleton (hexUpper (b % 16)))

/-- JavaScript `encodeURIComponent`. -/
def encodeURIComponent (s : String) : String :=
  String.join (s.data.map fun c =>
    if isUnreservedURIChar c then String.singleton c else percentEncodeChar c)

/-- The `.filter` predicate of `objectToQueryString`:
`if (Array.isArray(value) && key) return value.length > 0;`
`return value !== undefined && value !== null;`
Note the truthiness test on `key`: an array entry under the empty key falls
through to the second test, which every array passes. -/
def queryFilter (key : String) (value : JSValue) : Bool :=
  if value.isArray && key != "" then
    decide (0 < value.arrayLength)
  else
    value != JSValue.undefined && value != JSValue.nullV

/-- The `.map` body of `objectToQueryString`: an array renders as
`key[]=` followed by the encoded items joined by `,`; anything else renders
as `key=value` with both sides encoded. -/
def queryRender (key : String) (value : JSValue) : String :=
  match value with
  | .arr items =>
      encodeURIComponent key ++ "[]=" ++
        String.intercalate "," (items.map fun item => encodeURIComponent item)
  | _ => encodeURIComponent key ++ "=" ++ encodeURIComponent value.toJSString

/-- `objectToQueryString` (src/server.js): filter the entries, render each
retained entry, join with `&`. -/
def objectToQueryString (obj : List (String × JSValue)) : String :=
  String.intercalate "&"
    ((obj.filter fun kv => queryFilter kv.1 kv.2).map fun kv => queryRender kv.1 kv.2)

/- Spec-side serializers for claim C9.  These follow the words of the claim
(and its amendment), to be compared with `objectToQueryString` above. -/

/-- The retention rule exactly as claim C9 states it: keep entries whose value
is neither `undefined` nor `null`, additionally dropping array-valued entries
whose array is empty. -/
def keptByClaimC9 : String × JSValue → Bool
  | (_, .undefined) => false
  | (_, .nullV) => false
  | (_, .arr items) => !items.isEmpty
  | (_, _) => true

/-- The rendering exactly as claim C9 states it: an array entry renders as
`encodeURIComponent(k) ++ "[]=" ++` the elements each encoded and joined by
`","`; a non-array entry renders as `encodeURIComponent(k) ++ "=" ++
encodeURIComponent(v)`. -/
def renderByClaimC9 : String × JSValue → String
  | (k, .arr items) =>
      encodeURIComponent k ++ "[]=" ++
        String.intercalate "," (items.map encodeURIComponent)
  | (k, v) => encodeURIComponent k ++ "=" ++ encodeURIComponent v.toJSString

/-- The serialization claim C9 describes: render the retained entries in
entry order and join them with `&`. -/
def claimQueryStringC9 (obj : List (String × JSValue)) : String :=
  String.intercalate "&"
    ((obj.filter keptByClaimC9).map renderByClaimC9)

/-- The retention rule of the amended claim C9: entries whose value is
`undefined` or `null` are dropped; an array-valued entry is additionally
dropped when its key is non-empty and its array is empty (an array-valued
entry under the empty key is always retained). -/
def keptByAmendedC9 : String × JSValue → Bool
  | (_, .undefined) => false
  | (_, .nullV) => false
  | (k, .arr items) => !(k ≠ "" && items.isEmpty)
  | (_, _) => true

/-- The serialization the amended claim C9 describes. -/
def amendedQueryStringC9 (obj : List (String × JSValue)) : String :=
  String.intercalate "&"
    ((obj.filter keptByAmendedC9).map renderByClaimC9)

/- ### JSON-RPC error envelope: `createErrorResponse` (src/server.js) -/

/-- The `error` member of the envelope built by `createErrorResponse`. -/
structure JsonRpcErrorBody where
  code : Int
  message : String

/-- The envelope built by `createErrorResponse`: a JSON-RPC version tag, an
error body, and a correlation id. -/
structure ErrorResponse where
  jsonrpc : String
  error : JsonRpcErrorBody
  id : String

/-- `createErrorResponse(message)` (src/server.js): `jsonrpc: "2.0"`, error
code `-32000` with the given message, and `id: randomUUID()`.  The value the
`randomUUID` generator returned for this call is passed in as `uuid`. -/
def createErrorResponse (uuid : String) (message : String) : ErrorResponse :=
  { jsonrpc := "2.0"
    error := { code := -32000, message := message }
    id := uuid }

/-- The JSON document the envelope serializes to, fields in source order. -/
def ErrorResponse.toJson (r : ErrorResponse) : Json :=
  Json.obj
    [("jsonrpc", .str r.jsonrpc),
     ("error", .obj [("code", .num r.error.code), ("message", .str r.error.message)]),
     ("id", .str r.id)]

/-- The error envelope as written by `res.status(...).json(...)`. -/
def errorResponseJson (uuid : String) (message : String) : Json :=
  (createErrorResponse uuid message).toJson

/-- The message used by every 400 rejection in both handlers. -/
def badRequestMessage : String := "Bad Request: invalid session ID or method."

/- ### `isInitializeRequest` (src/server.js and src/unnamed/part_002) -/

/-- Modelled from the spec: the shape check performed by
`InitializeRequestSchema.safeParse`, which lives in the external
`@modelcontextprotocol/sdk` package and is not part of this repository.  Per
the spec, a value passes iff it is an `initialize` request: method name
`"initialize"`, with the required `protocolVersion`, `capabilities` and
`clientInfo` fields (carried in `params`, as in the spec's end-to-end
scenario). -/
def isInitial (data : Json) : Bool :=
  match data with
  | .obj fields =>
      (match lookupField fields "method" with
       | some (.str m) => m == "initialize"
       | _ => false) &&
      (match lookupField fields "params" with
       | some (.obj ps) =>
           hasField ps "protocolVersion" && hasField ps "capabilities" &&
             hasField ps "clientInfo"
       | _ => false)
  | _ => false

/-- `isInitializeRequest(body)`: on an array body, `body.some(isInitial)`;
otherwise `isInitial(body)`. -/
def isInitializeRequest (body : Json) : Bool :=
  match body with
  | .arr elems => elems.any fun request => isInitial request
  | _ => isInitial body

/- ### Session registry and request router (src/server.js) -/

/-- A transport object is identified by an opaque id; its observable state
(the generated session id, whether its methods throw) lives in `Env`. -/
abbrev TransportId := Nat

/-- The `transports` registry: a JavaScript object mapping session id to
transport, embedded as an ordered association list. -/
abbrev RegMap := List (String × TransportId)

/-- Registry lookup, `this.transports[sessionId]`. -/
def lookupReg : RegMap → String → Option TransportId
  | [], _ => none
  | (k2, t) :: rest, k => if k2 == k then some t else lookupReg rest k

/-- Registry assignment, `this.transports[sessionId] = transport`: replaces
the binding when the key is present, otherwise appends it. -/
def insertReg : RegMap → String → TransportId → RegMap
  | [], k, t => [(k, t)]
  | (k2, t2) :: rest, k, t =>
      if k2 == k then (k2, t) :: rest else (k2, t2) :: insertReg rest k t

/-- JavaScript truthiness of the session header value
(`req.headers["mcp-session-id"]`): present and non-empty. -/
def headerTruthy : Option String → Bool
  | some s => s != ""
  | none => false

/-- The value of `sessionId && this.transports[sessionId]`: the registered
transport when the header is truthy and registered, otherwise nothing. -/
def resolveSession (transports : RegMap) (header : Option String) : Option TransportId :=
  if headerTruthy header then lookupReg transports (header.getD "") else none

/-- One observable effect of a request handler, in the order performed:
connecting the protocol server to a transport, delegating the request (and,
on POST, the parsed body) to a transport's `handleRequest`, storing a
registry entry, or writing an HTTP response itself. -/
inductive ReqAction where
  | serverConnect (t : TransportId)
  | transportHandleRequest (t : TransportId) (body : Option Json)
  | registryInsert (sid : String) (t : TransportId)
  | respond (status : Nat) (body : Json)

/-- The behaviour of the external collaborators for one request: the identity
of the transport `new StreamableHTTPServerTransport(...)` would construct, the
session id it exposes after handling its first request (`transport.sessionId`,
`none` when undefined), whether `server.connect` rejects for the fresh
transport, whether a given transport's `handleRequest` rejects (with which
message), and the string `randomUUID()` returns for an error envelope. -/
structure Env where
  freshTransport : TransportId
  freshSessionId : Option String
  connectThrows : Option String
  handleThrows : TransportId → Option String
  uuid : String

/-- The outcome of `handlePostRequest`: the registry afterwards and the
actions performed, in order. -/
structure PostResult where
  registry : RegMap
  actions : List ReqAction

/-- `handlePostRequest(req, res)` (src/server.js).  The whole body runs in a
`try`/`catch` whose `catch` answers HTTP 500 with
`"Internal server error: " + error.message`, so the handler never lets an
error escape: the result is always `Except.ok`.  Branches, in source order:
reuse a registered transport when the header is truthy and registered;
otherwise, when the header is falsy and the body is an initialize request,
construct a transport, `server.connect` it, let it handle the request, and
register it under `transport.sessionId` when that is defined; otherwise
answer HTTP 400 with the error envelope. -/
def handlePostRequest (env : Env) (transports : RegMap) (header : Option String)
    (body : Json) : Except String PostResult :=
  match resolveSession transports header with
  | some t =>
      -- reuse existing transport
      match env.handleThrows t with
      | none => .ok { registry := transports, actions := [.transportHandleRequest t (some body)] }
      | some m =>
          .ok { registry := transports
                actions := [.transportHandleRequest t (some body),
                            .respond 500 (errorResponseJson env.uuid ("Internal server error: " ++ m))] }
  | none =>
      if !headerTruthy header && isInitializeRequest body then
        -- create new transport
        match env.connectThrows with
        | some m =>
            .ok { registry := transports
                  actions := [.serverConnect env.freshTransport,
                              .respond 500 (errorResponseJson env.uuid ("Internal server error: " ++ m))] }
        | none =>
            match env.handleThrows env.freshTransport with
            | some m =>
                .ok { registry := transports
                      actions := [.serverConnect env.freshTransport,
                                  .transportHandleRequest env.freshTransport (some body),
                                  .respond 500 (errorResponseJson env.uuid ("Internal server error: " ++ m))] }
            | none =>
                -- `const newSessionId = transport.sessionId; if (newSessionId) ...`:
                -- the guard is JavaScript truthiness, so an undefined id and an
                -- empty-string id both skip the registration.
                match env.freshSessionId with
                | some sid =>
                    if sid != "" then
                      .ok { registry := insertReg transports sid env.freshTransport
                            actions := [.serverConnect env.freshTransport,
                                        .transportHandleRequest env.freshTransport (some body),
                                        .registryInsert sid env.freshTransport] }
                    else
                      .ok { registry := transports
                            actions := [.serverConnect env.freshTransport,
                                        .transportHandleRequest env.freshTransport (some body)] }
                | none =>
                    .ok { registry := transports
                          actions := [.serverConnect env.freshTransport,
                                      .transportHandleRequest env.freshTransport (some body)] }
      else
        .ok { registry := transports
              actions := [.respond 400 (errorResponseJson env.uuid badRequestMessage)] }

/-- `handleGetRequest(req, res)` (src/server.js).  No `try`/`catch` here: when
the resolved transport's `handleRequest` rejects, the error propagates out of
the handler (`Except.error`).  The registry is never touched. -/
def handleGetRequest (env : Env) (transports : RegMap) (header : Option String) :
    Except String (List ReqAction) :=
  match resolveSession transports header with
  | none => .ok [.respond 400 (errorResponseJson env.uuid badRequestMessage)]
  | some t =>
      match env.handleThrows t with
      | some m => .error m
      | none => .ok [.transportHandleRequest t none]

/- ### Tool dispatch table (src/server.js, `setupTools`) -/

/-- Property access `args.k` on a tool's `arguments` object: `none` is
JavaScript `undefined`. -/
def jsGet (args : Json) (k : String) : Option Json :=
  match args with
  | .obj fields => lookupField fields k
  | _ => none

/-- JavaScript template-literal interpolation of `args.internId` and the
like, for the value shapes tool arguments take (`none` is `undefined`). -/
def jsTemplateString : Option Json → String
  | some (.str s) => s
  | some (.num n) => toString n
  | some (.bool b) => if b then "true" else "false"
  | some .null => "null"
  | some (.arr _) => ""
  | some (.obj _) => "[object Object]"
  | none => "undefined"

/-- JavaScript `Number(v)` coercion, to the extent the handlers use it:
an integer stays itself, an integer-literal string parses, `null` is `0`,
booleans are `0`/`1`, anything else is `NaN` (`none`). -/
def jsNumber : Option Json → Option Int
  | some (.num n) => some n
  | some (.str s) => s.toInt?
  | some .null => some 0
  | some (.bool b) => some (if b then 1 else 0)
  | _ => none

/-- A text block of a `ToolResult`. -/
structure ContentItem where
  type : String
  text : String

/-- The content envelope a tool handler resolves with:
`{ content: [{ type: "text", text }] }`. -/
structure ToolResult where
  content : List ContentItem

/-- The two members of the SDK's `ErrorCode` enum the handlers use, with
their JSON-RPC numeric values. -/
inductive ErrorCode where
  | MethodNotFound
  | InternalError
deriving DecidableEq

/-- The wire value of an `ErrorCode`. -/
def ErrorCode.toInt : ErrorCode → Int
  | .MethodNotFound => -32601
  | .InternalError => -32603

/-- An `McpError` as thrown by the tool handlers: a code and a message. -/
structure McpError where
  code : ErrorCode
  message : String

/-- One outbound REST call made through `makeApiCall`. -/
structure ApiCall where
  endpoint : String
  method : String
  body : Json

/-- `shortListIntern(args)` (src/server.js): builds
`{ intern_id: Number(args.internId) }`, POSTs it to the shortlist endpoint,
and resolves with a success text naming `args.internId`; when the call
rejects with message `m` it throws
`McpError(InternalError, "Failed to shortlist intern: " + m)`.  The outcome
of the one `makeApiCall` is passed in as `api`; the second component of the
result lists the API calls performed. -/
def shortListIntern (api : Except String Json) (args : Json) :
    Except McpError ToolResult × List ApiCall :=
  let body := Json.obj [("intern_id",
    match jsNumber (jsGet args "internId") with
    | some n => Json.num n
    | none => Json.null)]
  let call : ApiCall :=
    { endpoint := "/host-company/browse-intern/save-shortlist-intern"
      method := "POST"
      body := body }
  match api with
  | .ok _ =>
      (.ok { content := [ContentItem.mk "text"
               ("Successfully shortlisted intern with ID: " ++
                 jsTemplateString (jsGet args "internId"))] },
       [call])
  | .error m =>
      (.error { code := .InternalError, message := "Failed to shortlist intern: " ++ m },
       [call])

/-- The other four registered handlers (`getCandidateList`,
`getCareerFieldList`, `getIoList`, `getCompanyProjectList`), abstracted: the
claims under verification only require that an unknown tool name invokes
none of them, so the dispatcher is proved correct for every behaviour they
could have. -/
structure ToolHandlers where
  getCandidateList : Json → Except McpError ToolResult × List ApiCall
  getCareerFieldList : Json → Except McpError ToolResult × List ApiCall
  getIoList : Json → Except McpError ToolResult × List ApiCall
  getCompanyProjectList : Json → Except McpError ToolResult × List ApiCall

/-- The `CallToolRequestSchema` handler (src/server.js, `setupTools`): switch
on `request.params.name` over the five registered tools; the default branch
throws `McpError(MethodNotFound, "Unknown tool: " + name)` without invoking
any handler or making any API call. -/
def callToolHandler (h : ToolHandlers) (api : Except String Json)
    (name : String) (args : Json) : Except McpError ToolResult × List ApiCall :=
  match name with
  | "get_candidate_list" => h.getCandidateList args
  | "get_career_field_list" => h.getCareerFieldList args
  | "get_internship_opportunity_list" => h.getIoList args
  | "get_company_project_list" => h.getCompanyProjectList args
  | "shortlist_intern" => shortListIntern api args
  | _ => (.error { code := .MethodNotFound, message := "Unknown tool: " ++ name }, [])

/-- The names of the five registered tools, in dispatch order. -/
def registeredToolNames : List String :=
  ["get_candidate_list", "get_career_field_list", "get_internship_opportunity_list",
   "get_company_project_list", "shortlist_intern"]

/-- A descriptor of the `tools/list` catalog. -/
structure ToolDescriptor where
  name : String
  description : String
  inputSchema : Json

/-- The `required` array of an input schema (empty when absent). -/
def schemaRequired (schema : Json) : List Json :=
  match schema with
  | .obj fields =>
      match lookupField fields "required" with
      | some (.arr xs) => xs
      | _ => []
  | _ => []

/-- The static catalog returned by the `ListToolsRequestSchema` handler
(src/server.js, `setupTools`), descriptors and schemas transcribed in source
order. -/
def toolsList : List ToolDescriptor :=
  [{ name := "get_company_project_list"
     description := "Retrieve a list of all available company projects in the system. This provides access to project listings that can be used for filtering candidates or understanding available project opportunities."
     inputSchema := Json.obj
       [("type", .str "object"),
        ("properties", .obj
          [("perPage", .obj
             [("type", .str "string"),
              ("description", .str "Number of results to return per page"),
              ("default", .str "10")]),
           ("pageNumber", .obj
             [("type", .str "string"),
              ("description", .str "Page number for pagination (starts from 1)"),
              ("default", .str "1")])]),
        ("additionalProperties", .bool false)] },
   { name := "get_internship_opportunity_list"
     description := "Retrieve a list of all available internship opportunities (IOs) in the system. This provides access to internship listings with career field information included."
     inputSchema := Json.obj
       [("type", .str "object"),
        ("properties", .obj
          [("with_career_field", .obj
             [("type", .str "string"),
              ("description", .str "Include career field information in the response (e.g., \x271\x27 to include)"),
              ("default", .str "1")])]),
        ("additionalProperties", .bool false)] },
   { name := "get_candidate_list"
     description := "Retrieve a filtered list of candidates based on various criteria including skills, preferred start months, duration, projects, career fields, and more. This provides comprehensive candidate browsing capabilities."
     inputSchema := Json.obj
       [("type", .str "object"),
        ("properties", .obj
          [("skillIds", .obj
             [("type", .str "array"),
              ("items", .obj [("type", .str "string")]),
              ("description", .str "Array of skill IDs to filter candidates by their skills"),
              ("default", .arr [])]),
           ("preferredStartMonths", .obj
             [("type", .str "array"),
              ("items", .obj
                [("type", .str "string"),
                 ("pattern", .str "^\\d\x7b1,2\x7d\\/\\d\x7b4\x7d(,\\d\x7b1,2\x7d\\/\\d\x7b4\x7d)*$")]),
              ("description", .str "Array of preferred start months in MM/YYYY format (e.g., [\"01/2024\", \"02/2024\"])"),
              ("default", .arr [])]),
           ("durations", .obj
             [("type", .str "array"),
              ("items", .obj [("type", .str "string")]),
              ("description", .str "Array of internship durations to filter by"),
              ("default", .arr [])]),
           ("projectIds", .obj
             [("type", .str "array"),
              ("items", .obj [("type", .str "string")]),
              ("description", .str "Array of project IDs to filter candidates by their projects"),
              ("default", .arr [])]),
           ("careerFieldIds", .obj
             [("type", .str "array"),
              ("items", .obj [("type", .str "string")]),
              ("description", .str "Array of career field IDs to filter candidates by their career interests"),
              ("default", .arr [])]),
           ("internUuids", .obj
             [("type", .str "array"),
              ("items", .obj [("type", .str "string")]),
              ("description", .str "Array of specific intern UUIDs to retrieve"),
              ("default", .arr [])]),
           ("onlyFilters", .obj
             [("type", .str "boolean"),
              ("description", .str "Boolean flag to return only filter options without candidate data"),
              ("default", .bool false)]),
           ("perPage", .obj
             [("type", .str "string"),
              ("description", .str "Number of results to return per page"),
              ("default", .str "10")]),
           ("pageNumber", .obj
             [("type", .str "string"),
              ("description", .str "Page number for pagination (starts from 1)"),
              ("default", .str "1")]),
           ("irIds", .obj
             [("type", .str "array"),
              ("items", .obj [("type", .str "string")]),
              ("description", .str "Array of IR (Internal Recruiter) IDs to filter by"),
              ("default", .arr [])]),
           ("careerSkillName", .obj
             [("type", .str "string"),
              ("description", .str "Search by career skill name")]),
           ("wantToLearnCareerFieldSkillName", .obj
             [("type", .str "string"),
              ("description", .str "Search by skills the candidate wants to learn")]),
           ("projectsDescription", .obj
             [("type", .str "string"),
              ("description", .str "Search within project descriptions")]),
           ("aboutMe", .obj
             [("type", .str "string"),
              ("description", .str "Search within candidate \"about me\" sections")]),
           ("countryIds", .obj
             [("type", .str "array"),
              ("items", .obj [("type", .str "string")]),
              ("description", .str "Array of country IDs to filter candidates by location"),
              ("default", .arr [])]),
           ("universityName", .obj
             [("type", .str "string"),
              ("description", .str "Search by university name")]),
           ("pastExperience", .obj
             [("type", .str "string"),
              ("description", .str "Search within past experience descriptions")]),
           ("portfolio", .obj
             [("type", .str "string"),
              ("description", .str "Search within portfolio information")])]),
        ("additionalProperties", .bool false)] },
   { name := "get_career_field_list"
     description := "Retrieve a list of all available career fields in the system. This can be used to get career field IDs and names for filtering candidates or understanding available career options."
     inputSchema := Json.obj
       [("type", .str "object"),
        ("properties", .obj
          [("type", .obj
             [("type", .str "string"),
              ("description", .str "Type of career fields to retrieve (e.g., \"global\")"),
              ("default", .str "global")])]),
        ("additionalProperties", .bool false)] },
   { name := "shortlist_intern"
     description := "Add an intern to the shortlist for a host company. This allows companies to save promising candidates for future reference and consideration."
     inputSchema := Json.obj
       [("type", .str "object"),
        ("properties", .obj
          [("internId", .obj
             [("type", .str "string"),
              ("description", .str "The unique identifier of the intern to be shortlisted")])]),
        ("required", .arr [.str "internId"]),
        ("additionalProperties", .bool false)] }]

/- ### Notification streamer (src/unnamed/part_002) -/

/-- JavaScript object spread-and-set, `{ ...fields, k: v }`: replaces the
binding in place when the key exists, otherwise appends it. -/
def setField : List (String × Json) → String → Json → List (String × Json)
  | [], k, v => [(k, v)]
  | (k2, v2) :: rest, k, v =>
      if k2 == k then (k2, v) :: rest else (k2, v2) :: setField rest k v

namespace StreamMcp

/-- One event of the notification streamer on a transport's SSE stream:
pushing a JSON-RPC notification at a millisecond offset from stream
establishment, or closing the underlying connection (which the streamer
never performs — teardown is left to the transport/HTTP layer). -/
inductive StreamEvent where
  | notify (atMs : Nat) (payload : Json)
  | closeConnection (atMs : Nat)

/-- `{ method: "notifications/message", params: { level: "info", data } }`,
the frame shape every message of `streamMessages` uses. -/
def logMessage (data : String) : Json :=
  Json.obj [("method", .str "notifications/message"),
            ("params", .obj [("level", .str "info"), ("data", .str data)])]

/-- `sendNotification(transport, notification)`: spread the notification and
add `jsonrpc: "2.0"`, then `transport.send` the result. -/
def rpcNotification (notification : Json) : Json :=
  match notification with
  | .obj fields => .obj (setField fields "jsonrpc" (.str "2.0"))
  | j => j

/-- One firing of the `setInterval` callback of `streamMessages`, given the
rendered timestamp `now` (`new Date().toISOString()`) and the current
`messageCount`: increment the count, send `"Message N at <now>"`; when the
count reaches 2, clear the interval and send `"Streaming complete!"`.
Returns the new count, whether the interval is still set, and the
notifications sent by this firing, in order. -/
def intervalStep (now : String) (messageCount : Nat) : Nat × Bool × List Json :=
  let messageCount := messageCount + 1
  let data := "Message " ++ toString messageCount ++ " at " ++ now
  let message := logMessage data
  if messageCount == 2 then
    (messageCount, false, [message, logMessage "Streaming complete!"])
  else
    (messageCount, true, [message])

/-- The timer of `streamMessages`, observed for `ticks` firings of its
one-second interval: tick `tick` occurs `1000 * tick` ms after establishment;
once the interval has been cleared no callback runs again. -/
def runInterval (times : Nat → String) (tick : Nat) (ticks : Nat)
    (messageCount : Nat) (active : Bool) : List StreamEvent :=
  match ticks with
  | 0 => []
  | ticks + 1 =>
      if active then
        match intervalStep (times tick) messageCount with
        | (mc, act, msgs) =>
            (msgs.map fun m => StreamEvent.notify (1000 * tick) (rpcNotification m))
              ++ runInterval times (tick + 1) ticks mc act
      else []

/-- `streamMessages(transport)` (src/unnamed/part_002): immediately send the
`"SSE Connection established"` notification, then start the one-second
interval with `messageCount = 0`.  `times k` is the timestamp string the
`k`-th firing renders; `ticks` is how many interval periods are observed. -/
def streamMessages (times : Nat → String) (ticks : Nat) : List StreamEvent :=
  StreamEvent.notify 0 (rpcNotification (logMessage "SSE Connection established"))
    :: runInterval times 1 ticks 0 true

/-- The result of part_002's `handleGetRequest`: the actions taken at the
HTTP boundary and the stream events then emitted over the SSE channel. -/
structure GetStreamResult where
  actions : List ReqAction
  stream : List StreamEvent

/-- `handleGetRequest(req, res)` (src/unnamed/part_002): same rejection rule
as the server.js variant, but after delegating to the resolved transport it
runs `streamMessages` against that transport's SSE stream. -/
def handleGetRequest (times : Nat → String) (ticks : Nat) (uuid : String)
    (transports : RegMap) (header : Option String) : GetStreamResult :=
  match resolveSession transports header with
  | none =>
      { actions := [.respond 400 (errorResponseJson uuid badRequestMessage)]
        stream := [] }
  | some t =>
      { actions := [.transportHandleRequest t none]
        stream := streamMessages times ticks }

end StreamMcp

/- ### Shared concrete fixtures for witnesses and counterexamples -/

/-- An environment in which no external call rejects: the fresh transport is
number 7, it exposes session id `"fresh-uuid"` after its first request, and
`randomUUID` yields `"uuid-1"`. -/
def envW : Env :=
  { freshTransport := 7
    freshSessionId := some "fresh-uuid"
    connectThrows := none
    handleThrows := fun _ => none
    uuid := "uuid-1" }

/-- A registry with one established session `"abc"` on transport 0. -/
def regW : RegMap := [("abc", 0)]

/-- A valid `initialize` request body (the spec's end-to-end scenario). -/
def initBody : Json :=
  Json.obj
    [("method", .str "initialize"),
     ("params", .obj
       [("protocolVersion", .str "2024-11-05"),
        ("capabilities", .obj []),
        ("clientInfo", .obj [("name", .str "t"), ("version", .str "0")])])]

/- ### Claim theorems -/

/-- C1: a POST /mcp whose `mcp-session-id` header is a registered key is
forwarded — request body included — to that registered transport's
`handleRequest`; the handler returns without connecting a new transport and
without touching the registry, even when the body is itself a valid
initialize request. -/
theorem c1_reuse_always_wins (env : Env) (transports : RegMap) (sid : String)
    (body : Json) (t : TransportId) (hsid : sid ≠ "")
    (hreg : lookupReg transports sid = some t) :
    ∃ r, handlePostRequest env transports (some sid) body = .ok r ∧
      r.registry = transports ∧
      ReqAction.transportHandleRequest t (some body) ∈ r.actions ∧
      (∀ s tid, ReqAction.registryInsert s tid ∉ r.actions) ∧
      (∀ tid, ReqAction.serverConnect tid ∉ r.actions) := by
  have hres : resolveSession transports (some sid) = some t := by
    simp [resolveSession, headerTruthy, hsid, hreg]
  cases hth : env.handleThrows t with
  | none =>
      refine ⟨{ registry := transports,
                actions := [.transportHandleRequest t (some body)] },
        ?_, rfl, ?_, ?_, ?_⟩
      · simp [handlePostRequest, hres, hth]
      · simp
      · intro s tid; simp
      · intro tid; simp
  | some m =>
      refine ⟨{ registry := transports,
                actions := [.transportHandleRequest t (some body),
                  .respond 500 (errorResponseJson env.uuid ("Internal server error: " ++ m))] },
        ?_, rfl, ?_, ?_, ?_⟩
      · simp [handlePostRequest, hres, hth]
      · simp
      · intro s tid; simp
      · intro tid; simp

/-- Witness for C1: the hypotheses hold and the theorem applies at the
session `"abc"` of `regW` with an initialize body. -/
theorem c1_witness :
    ("abc" ≠ "" ∧ lookupReg regW "abc" = some 0) ∧
      ∃ r, handlePostRequest envW regW (some "abc") initBody = .ok r ∧
        r.registry = regW ∧
        ReqAction.transportHandleRequest 0 (some initBody) ∈ r.actions ∧
        (∀ s tid, ReqAction.registryInsert s tid ∉ r.actions) ∧
        (∀ tid, ReqAction.serverConnect tid ∉ r.actions) :=
  ⟨⟨by decide, rfl⟩,
   c1_reuse_always_wins envW regW "abc" initBody 0 (by decide) rfl⟩

/-- Counterexample to C2 as stated: a POST /mcp carrying the header
`mcp-session-id:` with the *empty* value — a value that is not a key of the
(empty) transports map — and a valid initialize body is not answered with
HTTP 400: the empty header value is falsy in JavaScript, so the handler runs
the create branch (connect, delegate, register) instead of rejecting. -/
theorem c2_counterexample :
    lookupReg ([] : RegMap) "" = none ∧
    handlePostRequest envW [] (some "") initBody =
      .ok { registry := [("fresh-uuid", 7)]
            actions := [.serverConnect 7,
                        .transportHandleRequest 7 (some initBody),
                        .registryInsert "fresh-uuid" 7] } ∧
    ∀ j, ReqAction.respond 400 j ∉
      [ReqAction.serverConnect 7,
       ReqAction.transportHandleRequest 7 (some initBody),
       ReqAction.registryInsert "fresh-uuid" 7] := by
  refine ⟨rfl, rfl, ?_⟩
  intro j
  simp

/-- C2 (amended): a POST /mcp whose header is falsy (absent or empty) with a
non-initialize body, or whose header is a non-empty string that is not a
registered key, and a GET /mcp whose header is not a registered key, are all
answered with HTTP 400 carrying the envelope built by `createErrorResponse`:
`jsonrpc "2.0"`, fixed code `-32000`, the generator-supplied fresh id, the
fixed non-empty message, an `error` member and no `result` member. -/
theorem c2_rejection_envelope :
    (∀ env transports header body,
        headerTruthy header = false → isInitializeRequest body = false →
        handlePostRequest env transports header body =
          .ok { registry := transports
                actions := [.respond 400 (errorResponseJson env.uuid badRequestMessage)] }) ∧
    (∀ env transports sid body, sid ≠ "" → lookupReg transports sid = none →
        handlePostRequest env transports (some sid) body =
          .ok { registry := transports
                actions := [.respond 400 (errorResponseJson env.uuid badRequestMessage)] }) ∧
    (∀ env transports header,
        (∀ s, header = some s → lookupReg transports s = none) →
        handleGetRequest env transports header =
          .ok [.respond 400 (errorResponseJson env.uuid badRequestMessage)]) ∧
    (∀ uuid msg, ∃ fields,
        errorResponseJson uuid msg = Json.obj fields ∧
        lookupField fields "jsonrpc" = some (.str "2.0") ∧
        lookupField fields "error" =
          some (.obj [("code", .num (-32000)), ("message", .str msg)]) ∧
        lookupField fields "id" = some (.str uuid) ∧
        hasField fields "result" = false) ∧
    badRequestMessage ≠ "" := by
  refine ⟨?_, ?_, ?_, ?_, by decide⟩
  · intro env transports header body hhdr hinit
    simp [handlePostRequest, resolveSession, hhdr, hinit]
  · intro env transports sid body hsid hreg
    have hres : resolveSession transports (some sid) = none := by
      simp [resolveSession, headerTruthy, hsid, hreg]
    have htr : headerTruthy (some sid) = true := by
      simp [headerTruthy, hsid]
    simp [handlePostRequest, hres, htr]
  · intro env transports header hreg
    have hres : resolveSession transports header = none := by
      cases header with
      | none => rfl
      | some s =>
          by_cases hs : s = ""
          · simp [resolveSession, headerTruthy, hs]
          · simp [resolveSession, headerTruthy, hs, hreg s rfl]
    simp [handleGetRequest, hres]
  · intro uuid msg
    exact ⟨_, rfl, rfl, rfl, rfl, rfl⟩

/-- Witness for C2 (amended): the three rejection cases fire at concrete
inputs — header absent with a non-initialize body, unknown non-empty header
with an initialize body, and a GET with an unknown header. -/
theorem c2_witness :
    handlePostRequest envW regW none (Json.str "x") =
      .ok { registry := regW
            actions := [.respond 400 (errorResponseJson envW.uuid badRequestMessage)] } ∧
    handlePostRequest envW regW (some "zzz") initBody =
      .ok { registry := regW
            actions := [.respond 400 (errorResponseJson envW.uuid badRequestMessage)] } ∧
    handleGetRequest envW regW (some "zzz") =
      .ok [.respond 400 (errorResponseJson envW.uuid badRequestMessage)] :=
  ⟨c2_rejection_envelope.1 envW regW none (Json.str "x") rfl rfl,
   c2_rejection_envelope.2.1 envW regW "zzz" initBody (by decide) rfl,
   c2_rejection_envelope.2.2.1 envW regW (some "zzz")
     (by intro s h; cases h; rfl)⟩

/-- C3: `isInitializeRequest` answers true on an array body iff some element
passes the initialize-shape check, and on a non-array body iff the body
itself passes; in particular the empty array is not an initialize request. -/
theorem c3_initialize_detection :
    (∀ elems, isInitializeRequest (Json.arr elems) = true ↔
        ∃ x ∈ elems, isInitial x = true) ∧
    (∀ body, (∀ elems, body ≠ Json.arr elems) →
        (isInitializeRequest body = true ↔ isInitial body = true)) ∧
    isInitializeRequest (Json.arr []) = false := by
  refine ⟨?_, ?_, rfl⟩
  · intro elems
    simp [isInitializeRequest, List.any_eq_true]
  · intro body hna
    cases body with
    | arr elems => exact absurd rfl (hna elems)
    | null => exact Iff.rfl
    | bool b => exact Iff.rfl
    | num n => exact Iff.rfl
    | str s => exact Iff.rfl
    | obj fields => exact Iff.rfl

/-- Witness for C3: the theorem applied to a concrete object body and a
concrete two-element array body. -/
theorem c3_witness :
    (isInitializeRequest initBody = true ↔ isInitial initBody = true) ∧
    (isInitializeRequest (Json.arr [Json.null, initBody]) = true ↔
      ∃ x ∈ [Json.null, initBody], isInitial x = true) :=
  ⟨c3_initialize_detection.2.1 initBody (by intro elems h; simp [initBody] at h),
   c3_initialize_detection.1 [Json.null, initBody]⟩

/-- Existing registry bindings stay present across an assignment. -/
theorem lookupReg_insertReg_isSome (m : RegMap) (sid : String) (t : TransportId)
    (k : String) (hk : (lookupReg m k).isSome) :
    (lookupReg (insertReg m sid t) k).isSome := by
  induction m with
  | nil => simp [lookupReg] at hk
  | cons kv rest ih =>
      obtain ⟨k2, t2⟩ := kv
      by_cases h2 : k2 == sid
      · simp only [insertReg, h2, if_pos]
        by_cases hk2 : k2 == k
        · simp [lookupReg, hk2]
        · simp only [lookupReg, hk2, if_neg, Bool.false_eq_true, if_false] at hk ⊢
          exact hk
      · simp only [insertReg, h2, Bool.false_eq_true, if_false]
        by_cases hk2 : k2 == k
        · simp [lookupReg, hk2]
        · simp only [lookupReg, hk2, Bool.false_eq_true, if_false] at hk ⊢
          exact ih hk

/-- Case analysis of `handlePostRequest`: it always returns, and either the
registry is untouched and no insert action occurs, or the create branch ran
to completion — `server.connect` and the first `handleRequest` both
succeeded, the fresh transport exposed a defined session id — and the one
insert is the final action. -/
theorem handlePost_split (env : Env) (transports : RegMap) (header : Option String)
    (body : Json) :
    ∃ r, handlePostRequest env transports header body = .ok r ∧
      ((r.registry = transports ∧
          ∀ sid tid, ReqAction.registryInsert sid tid ∉ r.actions) ∨
       (∃ sid, env.freshSessionId = some sid ∧ env.connectThrows = none ∧
          env.handleThrows env.freshTransport = none ∧
          r.registry = insertReg transports sid env.freshTransport ∧
          r.actions = [.serverConnect env.freshTransport,
                       .transportHandleRequest env.freshTransport (some body),
                       .registryInsert sid env.freshTransport])) := by
  cases hres : resolveSession transports header with
  | some t =>
      cases hth : env.handleThrows t with
      | none =>
          refine ⟨{ registry := transports,
                    actions := [.transportHandleRequest t (some body)] },
            ?_, .inl ⟨rfl, ?_⟩⟩
          · simp [handlePostRequest, hres, hth]
          · intro sid tid; simp
      | some m =>
          refine ⟨{ registry := transports,
                    actions := [.transportHandleRequest t (some body),
                      .respond 500 (errorResponseJson env.uuid ("Internal server error: " ++ m))] },
            ?_, .inl ⟨rfl, ?_⟩⟩
          · simp [handlePostRequest, hres, hth]
          · intro sid tid; simp
  | none =>
      by_cases hcond : (!headerTruthy header && isInitializeRequest body) = true
      · cases hcon : env.connectThrows with
        | some m =>
            refine ⟨{ registry := transports,
                      actions := [.serverConnect env.freshTransport,
                        .respond 500 (errorResponseJson env.uuid ("Internal server error: " ++ m))] },
              ?_, .inl ⟨rfl, ?_⟩⟩
            · simp [handlePostRequest, hres, hcond, hcon]
            · intro sid tid; simp
        | none =>
            cases hth : env.handleThrows env.freshTransport with
            | some m =>
                refine ⟨{ registry := transports,
                          actions := [.serverConnect env.freshTransport,
                            .transportHandleRequest env.freshTransport (some body),
                            .respond 500 (errorResponseJson env.uuid ("Internal server error: " ++ m))] },
                  ?_, .inl ⟨rfl, ?_⟩⟩
                · simp [handlePostRequest, hres, hcond, hcon, hth]
                · intro sid tid; simp
            | none =>
                cases hsid : env.freshSessionId with
                | some sid =>
                    by_cases hne : (sid != "") = true
                    · refine ⟨{ registry := insertReg transports sid env.freshTransport,
                                actions := [.serverConnect env.freshTransport,
                                  .transportHandleRequest env.freshTransport (some body),
                                  .registryInsert sid env.freshTransport] },
                        ?_, .inr ⟨sid, rfl, rfl, rfl, rfl, rfl⟩⟩
                      simp [handlePostRequest, hres, hcond, hcon, hth, hsid, hne]
                    · refine ⟨{ registry := transports,
                                actions := [.serverConnect env.freshTransport,
                                  .transportHandleRequest env.freshTransport (some body)] },
                        ?_, .inl ⟨rfl, ?_⟩⟩
                      · simp only [handlePostRequest, hres, hcond, hcon, hth, hsid,
                          Bool.not_eq_true] at hne ⊢
                        simp [hne]
                      · intro sid2 tid; simp
                | none =>
                    refine ⟨{ registry := transports,
                              actions := [.serverConnect env.freshTransport,
                                .transportHandleRequest env.freshTransport (some body)] },
                      ?_, .inl ⟨rfl, ?_⟩⟩
                    · simp [handlePostRequest, hres, hcond, hcon, hth, hsid]
                    · intro sid tid; simp
      · refine ⟨{ registry := transports,
                  actions := [.respond 400 (errorResponseJson env.uuid badRequestMessage)] },
          ?_, .inl ⟨rfl, ?_⟩⟩
        · simp only [handlePostRequest, hres]
          rw [if_neg hcond]
        · intro sid tid; simp

/-- C4: the registry has a single writer.  Across every POST: existing
session ids never disappear; any `registryInsert` action is the final action
of the completed create branch — after `serverConnect` and the transport's
`handleRequest`, both successful, and only with the transport's session id
defined; any registry change is exactly that one insertion.  A GET never
performs a registry insertion (its result type carries no registry at all). -/
theorem c4_registry_single_writer :
    (∀ env transports header body r,
        handlePostRequest env transports header body = .ok r →
        ∀ k, (lookupReg transports k).isSome → (lookupReg r.registry k).isSome) ∧
    (∀ env transports header body r,
        handlePostRequest env transports header body = .ok r →
        ∀ sid tid, ReqAction.registryInsert sid tid ∈ r.actions →
          tid = env.freshTransport ∧ env.freshSessionId = some sid ∧
          env.connectThrows = none ∧ env.handleThrows env.freshTransport = none ∧
          r.actions = [.serverConnect env.freshTransport,
                       .transportHandleRequest env.freshTransport (some body),
                       .registryInsert sid env.freshTransport] ∧
          r.registry = insertReg transports sid env.freshTransport) ∧
    (∀ env transports header body r,
        handlePostRequest env transports header body = .ok r →
        r.registry ≠ transports →
        ∃ sid, env.freshSessionId = some sid ∧
          ReqAction.registryInsert sid env.freshTransport ∈ r.actions ∧
          r.registry = insertReg transports sid env.freshTransport) ∧
    (∀ env transports header acts,
        handleGetRequest env transports header = .ok acts →
        ∀ sid tid, ReqAction.registryInsert sid tid ∉ acts) := by
  refine ⟨?_, ?_, ?_, ?_⟩
  · intro env transports header body r hr k hk
    obtain ⟨r2, hr2, hcase⟩ := handlePost_split env transports header body
    rw [hr2] at hr
    injection hr with hr
    subst hr
    rcases hcase with ⟨hreg, _⟩ | ⟨sid, _, _, _, hreg, _⟩
    · rw [hreg]; exact hk
    · rw [hreg]; exact lookupReg_insertReg_isSome transports sid env.freshTransport k hk
  · intro env transports header body r hr sid tid hmem
    obtain ⟨r2, hr2, hcase⟩ := handlePost_split env transports header body
    rw [hr2] at hr
    injection hr with hr
    subst hr
    rcases hcase with ⟨_, hno⟩ | ⟨sid2, hsid, hcon, hth, hreg, hacts⟩
    · exact absurd hmem (hno sid tid)
    · rw [hacts] at hmem
      simp only [List.mem_cons, List.not_mem_nil, or_false] at hmem
      rcases hmem with h | h | h
      · exact absurd h (by simp)
      · exact absurd h (by simp)
      · obtain ⟨rfl, rfl⟩ : sid = sid2 ∧ tid = env.freshTransport := by
          injection h with h1 h2
          exact ⟨h1, h2⟩
        exact ⟨rfl, hsid, hcon, hth, hacts, hreg⟩
  · intro env transports header body r hr hne
    obtain ⟨r2, hr2, hcase⟩ := handlePost_split env transports header body
    rw [hr2] at hr
    injection hr with hr
    subst hr
    rcases hcase with ⟨hreg, _⟩ | ⟨sid, hsid, _, _, hreg, hacts⟩
    · exact absurd hreg hne
    · exact ⟨sid, hsid, by rw [hacts]; simp, hreg⟩
  · intro env transports header acts hr sid tid
    cases hres : resolveSession transports header with
    | none =>
        rw [show handleGetRequest env transports header =
            .ok [.respond 400 (errorResponseJson env.uuid badRequestMessage)] from by
          simp [handleGetRequest, hres]] at hr
        injection hr with hr
        subst hr
        simp
    | some t =>
        cases hth : env.handleThrows t with
        | some m =>
            rw [show handleGetRequest env transports header = .error m from by
              simp [handleGetRequest, hres, hth]] at hr
            exact absurd hr (by simp)
        | none =>
            rw [show handleGetRequest env transports header =
                .ok [.transportHandleRequest t none] from by
              simp [handleGetRequest, hres, hth]] at hr
            injection hr with hr
            subst hr
            simp

/-- The result of the concrete create-branch run used by the C4 witness. -/
def postW : PostResult :=
  { registry := insertReg regW "fresh-uuid" 7
    actions := [.serverConnect 7, .transportHandleRequest 7 (some initBody),
                .registryInsert "fresh-uuid" 7] }

/-- Witness for C4: the theorem applied to a concrete create-branch run —
the entry for `"abc"` survives the insertion of `"fresh-uuid"`, the insert
action satisfies the single-writer description, and a concrete GET performs
no insertion. -/
theorem c4_witness :
    (handlePostRequest envW regW none initBody = .ok postW ∧
      (lookupReg postW.registry "abc").isSome) ∧
    ((7 : TransportId) = envW.freshTransport ∧
      envW.freshSessionId = some "fresh-uuid" ∧
      envW.connectThrows = none ∧ envW.handleThrows envW.freshTransport = none ∧
      postW.actions = [.serverConnect envW.freshTransport,
        .transportHandleRequest envW.freshTransport (some initBody),
        .registryInsert "fresh-uuid" envW.freshTransport] ∧
      postW.registry = insertReg regW "fresh-uuid" envW.freshTransport) ∧
    (handleGetRequest envW regW (some "zzz") =
        .ok [.respond 400 (errorResponseJson envW.uuid badRequestMessage)] ∧
      ∀ sid tid, ReqAction.registryInsert sid tid ∉
        [ReqAction.respond 400 (errorResponseJson envW.uuid badRequestMessage)]) := by
  have hpost : handlePostRequest envW regW none initBody = .ok postW := rfl
  have hget : handleGetRequest envW regW (some "zzz") =
      .ok [.respond 400 (errorResponseJson envW.uuid badRequestMessage)] := rfl
  refine ⟨⟨hpost, ?_⟩, ?_, hget, ?_⟩
  · exact c4_registry_single_writer.1 envW regW none initBody postW hpost "abc" (by decide)
  · exact c4_registry_single_writer.2.1 envW regW none initBody postW hpost
      "fresh-uuid" 7 (by simp [postW])
  · exact fun sid tid =>
      c4_registry_single_writer.2.2.2 envW regW (some "zzz") _ hget sid tid

/-- An environment in which every transport's `handleRequest` rejects with
message `"boom"`. -/
def envBoom : Env :=
  { freshTransport := 7
    freshSessionId := some "fresh-uuid"
    connectThrows := none
    handleThrows := fun _ => some "boom"
    uuid := "uuid-1" }

/-- Counterexample to C5 as stated: a GET /mcp that resolves the registered
session `"abc"` while the transport's `handleRequest` rejects with `"boom"`.
`handleGetRequest` has no `try`/`catch`, so the error propagates out of the
handler instead of becoming a structured JSON-RPC error response. -/
theorem c5_counterexample :
    handleGetRequest envBoom regW (some "abc") = .error "boom" := rfl

/-- C5 (amended): `handlePostRequest` recovers every failure — it always
returns, and a rejection of the delegated `handleRequest` (in the reuse or
the create branch) is converted into HTTP 500 with a JSON-RPC error
envelope.  `handleGetRequest`, by contrast, has no such recovery: when the
resolved transport's `handleRequest` rejects, the error propagates out of
the handler. -/
theorem c5_post_recovers_get_propagates :
    (∀ env transports header body,
        ∃ r, handlePostRequest env transports header body = .ok r) ∧
    (∀ env transports header body t m,
        resolveSession transports header = some t → env.handleThrows t = some m →
        handlePostRequest env transports header body =
          .ok { registry := transports
                actions := [.transportHandleRequest t (some body),
                  .respond 500 (errorResponseJson env.uuid ("Internal server error: " ++ m))] }) ∧
    (∀ env transports header body m,
        resolveSession transports header = none →
        (!headerTruthy header && isInitializeRequest body) = true →
        env.connectThrows = none → env.handleThrows env.freshTransport = some m →
        handlePostRequest env transports header body =
          .ok { registry := transports
                actions := [.serverConnect env.freshTransport,
                  .transportHandleRequest env.freshTransport (some body),
                  .respond 500 (errorResponseJson env.uuid ("Internal server error: " ++ m))] }) ∧
    (∀ env transports sid t m, sid ≠ "" → lookupReg transports sid = some t →
        env.handleThrows t = some m →
        handleGetRequest env transports (some sid) = .error m) := by
  refine ⟨?_, ?_, ?_, ?_⟩
  · intro env transports header body
    obtain ⟨r, hr, _⟩ := handlePost_split env transports header body
    exact ⟨r, hr⟩
  · intro env transports header body t m hres hth
    simp [handlePostRequest, hres, hth]
  · intro env transports header body m hres hcond hcon hth
    simp [handlePostRequest, hres, hcond, hcon, hth]
  · intro env transports sid t m hsid hreg hth
    have hres : resolveSession transports (some sid) = some t := by
      simp [resolveSession, headerTruthy, hsid, hreg]
    simp [handleGetRequest, hres, hth]

/-- Witness for C5 (amended): at `envBoom`, the reuse POST on session
`"abc"` yields the 500 envelope while the GET on the same session lets
`"boom"` propagate. -/
theorem c5_witness :
    handlePostRequest envBoom regW (some "abc") initBody =
      .ok { registry := regW
            actions := [.transportHandleRequest 0 (some initBody),
              .respond 500 (errorResponseJson envBoom.uuid ("Internal server error: " ++ "boom"))] } ∧
    handleGetRequest envBoom regW (some "abc") = .error "boom" :=
  ⟨c5_post_recovers_get_propagates.2.1 envBoom regW (some "abc") initBody 0 "boom" rfl rfl,
   c5_post_recovers_get_propagates.2.2.2 envBoom regW "abc" 0 "boom" (by decide) rfl rfl⟩

/-- C6: the `tools/call` dispatcher catches nothing — whatever a handler
throws propagates to the SDK caller unchanged — and `shortListIntern` wraps
the message `m` of a failed API call into a propagating
`McpError(InternalError)` whose message is `"Failed to shortlist intern: "`
followed by `m`, hence includes `m`. -/
theorem c6_tool_error_containment :
    (∀ h api args,
        callToolHandler h api "get_candidate_list" args = h.getCandidateList args ∧
        callToolHandler h api "get_career_field_list" args = h.getCareerFieldList args ∧
        callToolHandler h api "get_internship_opportunity_list" args = h.getIoList args ∧
        callToolHandler h api "get_company_project_list" args = h.getCompanyProjectList args) ∧
    (∀ h args m, ∃ calls,
        callToolHandler h (.error m) "shortlist_intern" args =
          (.error { code := ErrorCode.InternalError
                    message := "Failed to shortlist intern: " ++ m }, calls) ∧
        ∃ pre, "Failed to shortlist intern: " ++ m = pre ++ m) := by
  refine ⟨?_, ?_⟩
  · intro h api args
    exact ⟨rfl, rfl, rfl, rfl⟩
  · intro h args m
    exact ⟨_, rfl, "Failed to shortlist intern: ", rfl⟩

/-- C8: the catalog contains a descriptor named `shortlist_intern` whose
`inputSchema.required` contains `"internId"`, and a successful
`tools/call` of `shortlist_intern` with `arguments.internId = x` resolves
with exactly one text block, `"Successfully shortlisted intern with ID: "`
followed by `x`, hence containing `x`. -/
theorem c8_shortlist_descriptor_and_success :
    (∃ d ∈ toolsList, d.name = "shortlist_intern" ∧
        Json.str "internId" ∈ schemaRequired d.inputSchema) ∧
    (∀ h result x extra, ∃ calls,
        callToolHandler h (.ok result) "shortlist_intern"
            (Json.obj (("internId", Json.str x) :: extra)) =
          (.ok { content := [{ type := "text"
                               text := "Successfully shortlisted intern with ID: " ++ x }] },
           calls) ∧
        ∃ pre suf, "Successfully shortlisted intern with ID: " ++ x = pre ++ x ++ suf) := by
  refine ⟨?_, ?_⟩
  · have hlen : 4 < toolsList.length := by simp [toolsList]
    refine ⟨toolsList.get ⟨4, hlen⟩, List.get_mem toolsList 4 hlen, rfl, ?_⟩
    exact List.mem_singleton.mpr rfl
  · intro h result x extra
    refine ⟨[{ endpoint := "/host-company/browse-intern/save-shortlist-intern"
               method := "POST"
               body := Json.obj [("intern_id",
                 match x.toInt? with
                 | some n => Json.num n
                 | none => Json.null)] }],
      ?_, "Successfully shortlisted intern with ID: ", "", by simp⟩
    rfl

/-- C10: a `tools/call` whose name is none of the five registered tools is
answered, for every possible behaviour of the four abstracted handlers, by a
thrown `McpError(MethodNotFound, "Unknown tool: " ++ name)`, with no handler
invoked and no API call made. -/
theorem c10_unknown_tool (h : ToolHandlers) (api : Except String Json)
    (name : String) (args : Json) (hname : name ∉ registeredToolNames) :
    callToolHandler h api name args =
      (.error { code := ErrorCode.MethodNotFound
                message := "Unknown tool: " ++ name }, []) := by
  simp only [registeredToolNames, List.mem_cons, List.not_mem_nil, or_false,
    not_or] at hname
  obtain ⟨h1, h2, h3, h4, h5⟩ := hname
  unfold callToolHandler
  split
  · exact absurd rfl h1
  · exact absurd rfl h2
  · exact absurd rfl h3
  · exact absurd rfl h4
  · exact absurd rfl h5
  · rfl

/-- Handlers used only to instantiate dispatcher theorems at a concrete
point. -/
def handlersW : ToolHandlers :=
  { getCandidateList := fun _ => (.ok { content := [] }, [])
    getCareerFieldList := fun _ => (.ok { content := [] }, [])
    getIoList := fun _ => (.ok { content := [] }, [])
    getCompanyProjectList := fun _ => (.ok { content := [] }, []) }

/-- Witness for C10: the name `"foo"` is unregistered and dispatches to the
`MethodNotFound` throw with no API call. -/
theorem c10_witness :
    "foo" ∉ registeredToolNames ∧
    callToolHandler handlersW (.ok Json.null) "foo" Json.null =
      (.error { code := ErrorCode.MethodNotFound
                message := "Unknown tool: " ++ "foo" }, []) :=
  ⟨by decide, c10_unknown_tool handlersW (.ok Json.null) "foo" Json.null (by decide)⟩

/-- Counterexample to C9 as stated: the object `{"": []}` — an array-valued
entry under the empty key.  The claim's rule drops the empty array, yielding
`""`; the code's filter tests the key's truthiness first, so the entry falls
through to the not-undefined/not-null test, is retained, and renders as
`"[]="`. -/
theorem c9_counterexample :
    objectToQueryString [("", JSValue.arr [])] = "[]=" ∧
    claimQueryStringC9 [("", JSValue.arr [])] = "" ∧
    objectToQueryString [("", JSValue.arr [])] ≠
      claimQueryStringC9 [("", JSValue.arr [])] := by
  refine ⟨by decide, by decide, by decide⟩

/-- The code's filter agrees with the amended claim's retention rule on
every entry. -/
theorem queryFilter_eq_keptByAmended (kv : String × JSValue) :
    queryFilter kv.1 kv.2 = keptByAmendedC9 kv := by
  obtain ⟨key, value⟩ := kv
  cases value with
  | undefined => by_cases hk : key = "" <;> simp [queryFilter, keptByAmendedC9, JSValue.isArray, hk]
  | nullV => by_cases hk : key = "" <;> simp [queryFilter, keptByAmendedC9, JSValue.isArray, hk]
  | str s => by_cases hk : key = "" <;> simp [queryFilter, keptByAmendedC9, JSValue.isArray, hk]
  | num n => by_cases hk : key = "" <;> simp [queryFilter, keptByAmendedC9, JSValue.isArray, hk]
  | boolV b => by_cases hk : key = "" <;> simp [queryFilter, keptByAmendedC9, JSValue.isArray, hk]
  | arr items =>
      by_cases hk : key = ""
      · simp [queryFilter, keptByAmendedC9, JSValue.isArray, hk]
      · simp only [queryFilter, keptByAmendedC9, JSValue.isArray, JSValue.arrayLength]
        cases items <;> simp [hk]

/-- The code's rendering agrees with the claim's rendering on every entry. -/
theorem queryRender_eq_renderByClaim (kv : String × JSValue) :
    queryRender kv.1 kv.2 = renderByClaimC9 kv := by
  obtain ⟨key, value⟩ := kv
  cases value <;> rfl

/-- C9 (amended): `objectToQueryString` serializes exactly the entries the
amended retention rule keeps, rendered as the claim describes, joined by `&`
in entry order. -/
theorem c9_amended_serialization (obj : List (String × JSValue)) :
    objectToQueryString obj = amendedQueryStringC9 obj := by
  unfold objectToQueryString amendedQueryStringC9
  congr 1
  induction obj with
  | nil => rfl
  | cons kv rest ih =>
      by_cases hkv : keptByAmendedC9 kv = true
      · rw [List.filter_cons_of_pos, List.filter_cons_of_pos hkv]
        · simp only [List.map_cons, ih, queryRender_eq_renderByClaim kv]
        · rw [queryFilter_eq_keptByAmended kv]; exact hkv
      · rw [List.filter_cons_of_neg, List.filter_cons_of_neg (by simpa using hkv)]
        · exact ih
        · rw [queryFilter_eq_keptByAmended kv]; simpa using hkv

/-- Once `clearInterval` has run, no further callback fires: an inactive
timer emits nothing, however long it is observed. -/
theorem runInterval_inactive (times : Nat → String) (tick ticks mc : Nat) :
    StreamMcp.runInterval times tick ticks mc false = [] := by
  cases ticks <;> rfl

/-- C7: a GET /mcp that resolves a registered transport delegates to that
transport and then streams, in order: the immediate `"SSE Connection
established"` info notification; at one-second intervals the info
notifications `"Message 1 ..."` and `"Message 2 ..."`; then, in the same
firing as message 2, the terminal `"Streaming complete!"` notification.
Nothing further is emitted no matter how long the timer is observed, and no
event ever closes the underlying connection. -/
theorem c7_stream_contract (times : Nat → String) (ticks : Nat) (uuid : String)
    (transports : RegMap) (sid : String) (t : TransportId)
    (hsid : sid ≠ "") (hreg : lookupReg transports sid = some t)
    (hticks : 2 ≤ ticks) :
    StreamMcp.handleGetRequest times ticks uuid transports (some sid) =
      { actions := [.transportHandleRequest t none]
        stream :=
          [.notify 0 (StreamMcp.rpcNotification
              (StreamMcp.logMessage "SSE Connection established")),
           .notify 1000 (StreamMcp.rpcNotification
              (StreamMcp.logMessage ("Message 1 at " ++ times 1))),
           .notify 2000 (StreamMcp.rpcNotification
              (StreamMcp.logMessage ("Message 2 at " ++ times 2))),
           .notify 2000 (StreamMcp.rpcNotification
              (StreamMcp.logMessage "Streaming complete!"))] } ∧
    ∀ ms, StreamMcp.StreamEvent.closeConnection ms ∉
      (StreamMcp.handleGetRequest times ticks uuid transports (some sid)).stream := by
  obtain ⟨k, rfl⟩ : ∃ k, ticks = k + 2 := ⟨ticks - 2, by omega⟩
  have hres : resolveSession transports (some sid) = some t := by
    simp [resolveSession, headerTruthy, hsid, hreg]
  have hstream : StreamMcp.streamMessages times (k + 2) =
      [.notify 0 (StreamMcp.rpcNotification
          (StreamMcp.logMessage "SSE Connection established")),
       .notify 1000 (StreamMcp.rpcNotification
          (StreamMcp.logMessage ("Message 1 at " ++ times 1))),
       .notify 2000 (StreamMcp.rpcNotification
          (StreamMcp.logMessage ("Message 2 at " ++ times 2))),
       .notify 2000 (StreamMcp.rpcNotification
          (StreamMcp.logMessage "Streaming complete!"))] ++
        StreamMcp.runInterval times 3 k 2 false := rfl
  have hmain : StreamMcp.handleGetRequest times (k + 2) uuid transports (some sid) =
      { actions := [.transportHandleRequest t none]
        stream :=
          [.notify 0 (StreamMcp.rpcNotification
              (StreamMcp.logMessage "SSE Connection established")),
           .notify 1000 (StreamMcp.rpcNotification
              (StreamMcp.logMessage ("Message 1 at " ++ times 1))),
           .notify 2000 (StreamMcp.rpcNotification
              (StreamMcp.logMessage ("Message 2 at " ++ times 2))),
           .notify 2000 (StreamMcp.rpcNotification
              (StreamMcp.logMessage "Streaming complete!"))] } := by
    simp only [StreamMcp.handleGetRequest, hres, hstream, runInterval_inactive,
      List.append_nil]
  refine ⟨hmain, ?_⟩
  rw [hmain]
  intro ms
  simp

/-- Witness for C7: the streamer's full trace at a concrete clock and a
five-tick observation window on session `"abc"`. -/
theorem c7_witness :
    StreamMcp.handleGetRequest (fun _ => "now") 5 "uuid-1" regW (some "abc") =
      { actions := [.transportHandleRequest 0 none]
        stream :=
          [.notify 0 (StreamMcp.rpcNotification
              (StreamMcp.logMessage "SSE Connection established")),
           .notify 1000 (StreamMcp.rpcNotification
              (StreamMcp.logMessage "Message 1 at now")),
           .notify 2000 (StreamMcp.rpcNotification
              (StreamMcp.logMessage "Message 2 at now")),
           .notify 2000 (StreamMcp.rpcNotification
              (StreamMcp.logMessage "Streaming complete!"))] } :=
  (c7_stream_contract (fun _ => "now") 5 "uuid-1" regW "abc" 0
    (by decide) rfl (by omega)).1
